import Mathlib

/-!
Shallow embedding of the socket-server-client repository
(`src/server.py`, `src/client.py`) and verification of its specification.

JSON values are modelled as a tree type `JValue` (the value returned by
`json.loads` / handed to `json.dumps`); the textual layer of the standard
`json` library is external to the repository and is modelled by taking the
tree itself as the wire form.  Python exceptions relevant to the code are
modelled by the `PyErr` type and fallible steps return `Except PyErr`.
The operating system's execution of a shell command line is an oracle
`run : String → RunOutcome` passed as a parameter.
-/

namespace SocketRC

/-- A JSON value as produced by `json.loads`: the Python value tree.
Objects keep their fields as an ordered association list. -/
inductive JValue where
  | null
  | bool (b : Bool)
  | num (n : Int)
  | str (s : String)
  | arr (elems : List JValue)
  | obj (fields : List (String × JValue))

/-- The Python exceptions that the server code distinguishes:
`KeyError` (missing dict key), `TypeError` (wrong-typed subscript or
iteration), and any other `Exception` (e.g. `subprocess.TimeoutExpired`). -/
inductive PyErr where
  | keyError
  | typeError
  | otherError
deriving DecidableEq, Repr

/-- Association-list field lookup, as Python dict subscripting on the
object produced by `json.loads` (whose keys are unique, so first match
suffices). -/
def lookupField : List (String × JValue) → String → Option JValue
  | [], _ => none
  | (k, v) :: rest, key => if k = key then some v else lookupField rest key

/-- Python subscripting `x[key]` with a string key: on a dict it looks the
key up (raising `KeyError` when absent); on any non-dict value it raises
`TypeError`. -/
def JValue.getItem : JValue → String → Except PyErr JValue
  | .obj fields, key =>
      match lookupField fields key with
      | some v => .ok v
      | none => .error .keyError
  | _, _ => .error .typeError

/-- Python iteration `for x in v` over a decoded JSON value: lists yield
their elements, strings their one-character substrings, dicts their keys;
`None`, booleans and numbers are not iterable (`TypeError`). -/
def JValue.pyIter : JValue → Except PyErr (List JValue)
  | .arr elems => .ok elems
  | .str s => .ok (s.data.map fun c => .str (String.mk [c]))
  | .obj fields => .ok (fields.map fun p => .str p.1)
  | _ => .error .typeError

/-- The fields of a completed `subprocess.run` result used by the server. -/
structure ProcResult where
  returncode : Int
  stdout : String
  stderr : String

/-- What the operating system does with one command line within the
configured timeout: the process completes (with exit code and captured
output), the timeout elapses (`subprocess.TimeoutExpired`), or some other
exception is raised by `subprocess.run`. -/
inductive RunOutcome where
  | completed (r : ProcResult)
  | timeoutExpired
  | raised

/-- The dict built by `Server.execute_cmd` before the dispatcher attaches
the command id. -/
structure CmdResult where
  status : Bool
  stdout : String
  stderr : String
  error_code : Nat
deriving DecidableEq, Repr

/-- Whether `needle` occurs as a contiguous substring of the character
list, as Python's `in` on strings. -/
def listContains (needle : List Char) : List Char → Bool
  | [] => needle.isEmpty
  | c :: tl => needle.isPrefixOf (c :: tl) || listContains needle tl

/-- The heuristic of `Server.execute_cmd` line 53: `"not found" in stderr`. -/
def containsNotFound (s : String) : Bool :=
  listContains "not found".data s.data

/-- Embedding of `Server.execute_cmd` (src/server.py lines 44-56):
run the command line, derive `status` from the exit code alone, and set
`error_code` to 3 exactly when the captured stderr contains `"not found"`.
A `subprocess.run` exception (timeout included) propagates out uncaught. -/
def execute_cmd (run : String → RunOutcome) (cmd : String) :
    Except PyErr CmdResult :=
  match run cmd with
  | .completed r =>
      .ok { status := decide (r.returncode = 0)
            stdout := r.stdout
            stderr := r.stderr
            error_code := if containsNotFound r.stderr then 3 else 0 }
  | .timeoutExpired => .error .otherError
  | .raised => .error .otherError

/-- One entry of a successful response: the executor's dict after
`update({"id": cmd["id"]})` (src/server.py lines 26-30).  The echoed id is
an arbitrary JSON value since the server never inspects it. -/
structure TaggedResult where
  status : Bool
  stdout : String
  stderr : String
  error_code : Nat
  id : JValue

/-- The response value `Server.request_parser` serializes: either the list
of per-command results, or the singleton error object
with `status` false and an `error_code`. -/
inductive Response where
  | results (rs : List TaggedResult)
  | protocolError (code : Nat)

/-- The loop body of `Server.request_parser` (src/server.py lines 25-30):
for each decoded command entry, subscript `"method"`, execute it, then
subscript `"id"` and attach it; the first exception aborts the loop. -/
def processCommands (run : String → RunOutcome) :
    List JValue → Except PyErr (List TaggedResult)
  | [] => .ok []
  | cmd :: rest => do
      let m ← cmd.getItem "method"
      match m with
      | .str s =>
          let r ← execute_cmd run s
          let i ← cmd.getItem "id"
          let tail ← processCommands run rest
          .ok ({ status := r.status, stdout := r.stdout, stderr := r.stderr,
                 error_code := r.error_code, id := i } :: tail)
      | _ => .error .typeError

/-- The body of the `try` block of `Server.request_parser` after
`json.loads` succeeded with value `j`: subscript `"commands"`, iterate
it, and run the per-command loop. -/
def dispatchBody (run : String → RunOutcome) (j : JValue) :
    Except PyErr (List TaggedResult) := do
  let cmdsV ← j.getItem "commands"
  let cmds ← cmdsV.pyIter
  processCommands run cmds

/-- Embedding of `Server.request_parser` (src/server.py lines 17-41).
The `json.loads` outcome is the input: `none` models a
`json.JSONDecodeError` on the raw bytes, `some j` the decoded value.
`KeyError` maps to error code 2, `json.JSONDecodeError` to 1, and every
other exception (the catch-all) to 4. -/
def requestParser (run : String → RunOutcome) (loads : Option JValue) :
    Response :=
  match loads with
  | none => .protocolError 1
  | some j =>
      match dispatchBody run j with
      | .ok rs => .results rs
      | .error .keyError => .protocolError 2
      | .error .typeError => .protocolError 4
      | .error .otherError => .protocolError 4

/-- Python `str.strip()` whitespace set: space, tab, newline, carriage
return, vertical tab, form feed. -/
def isPyWs (c : Char) : Bool :=
  c = ' ' || c = '\t' || c = '\n' || c = '\r' || c = '\x0B' || c = '\x0C'

/-- Python `line.strip()`: drop that whitespace from both ends. -/
def pyStrip (s : String) : String :=
  String.mk (((s.data.dropWhile isPyWs).reverse.dropWhile isPyWs).reverse)

/-- What the environment supplies to `Client.get_cmd`: `noPath` models
`file_path=None` (where `open(None)` raises `TypeError`), `notFound` a
`FileNotFoundError`, and `lines ls` a successful `readlines()`. -/
inductive FileOutcome where
  | noPath
  | notFound
  | lines (ls : List String)

/-- Embedding of `Client.get_cmd` (src/client.py lines 13-29): a missing
file reports failure; an absent path or an empty file falls back to one
interactively supplied command; otherwise the stripped file lines are the
commands. -/
def get_cmd (file : FileOutcome) (interactive : String) :
    Except String (List String) :=
  match file with
  | .notFound => .error "Unable to locate file!"
  | .noPath => .ok [interactive]
  | .lines ls =>
      if ls.isEmpty then .ok [interactive] else .ok (ls.map pyStrip)

/-- One command of a request: the client-minted id and the shell text. -/
structure Command where
  id : String
  method : String
deriving DecidableEq, Repr

/-- The loop of `Client.generate_request` (src/client.py lines 40-46):
one Command per sourced string, in order, each with the next identifier
from the `uuid.uuid4()` supply `ids`. -/
def buildCommands (ids : Nat → String) (data : List String) : List Command :=
  data.enum.map fun p => { id := ids p.1, method := p.2 }

/-- Embedding of `Client.generate_request` (src/client.py lines 32-50):
source the command strings, then build the request's command list; a
sourcing failure is passed through as the error message. -/
def generate_request (ids : Nat → String) (file : FileOutcome)
    (interactive : String) : Except String (List Command) :=
  match get_cmd file interactive with
  | .error msg => .error msg
  | .ok data => .ok (buildCommands ids data)

/-- The JSON tree `Client.generate_request` hands to `json.dumps` for one
command: the dict with keys `id` and `method` in insertion order. -/
def Command.toJson (c : Command) : JValue :=
  .obj [("id", .str c.id), ("method", .str c.method)]

/-- The request envelope handed to `json.dumps`:
the dict with the single key `commands`. -/
def encodeRequest (cmds : List Command) : JValue :=
  .obj [("commands", .arr (cmds.map Command.toJson))]

/-- Server-side decoding of one command entry, as the field extraction
`cmd["method"]` / `cmd["id"]` of `Server.request_parser`, specialized to
the string-typed schema of the protocol. -/
def decodeCommand (j : JValue) : Except PyErr Command := do
  let i ← j.getItem "id"
  let m ← j.getItem "method"
  match i, m with
  | .str si, .str sm => .ok { id := si, method := sm }
  | _, _ => .error .typeError

/-- Server-side decoding of a request tree: subscript `"commands"`,
iterate it, and decode each entry, as `Server.request_parser` lines 23-28
do before executing anything. -/
def decodeRequest (j : JValue) : Except PyErr (List Command) := do
  let cmdsV ← j.getItem "commands"
  let cmds ← cmdsV.pyIter
  cmds.mapM decodeCommand

/-- The JSON tree of one tagged result, with the dict keys in the
insertion order of `Server.execute_cmd` line 56 followed by the
`update({"id": ...})` of line 27-30. -/
def TaggedResult.toJson (r : TaggedResult) : JValue :=
  .obj [("status", .bool r.status), ("stdout", .str r.stdout),
        ("stderr", .str r.stderr), ("error_code", .num r.error_code),
        ("id", r.id)]

/-- The response tree `Server.request_parser` hands to `json.dumps`:
either the dict with `response` holding the list of results (line 32), or
the singleton error dict (line 41). -/
def Response.toJson : Response → JValue
  | .results rs => .obj [("response", .arr (rs.map TaggedResult.toJson))]
  | .protocolError e =>
      .obj [("response", .obj [("status", .bool false),
                               ("error_code", .num e)])]

/-- Modelled from the spec: the repository's client never decodes the
response JSON (src/client.py line 63 only decodes the bytes as UTF-8
text), so the response side of the Batch Codec's `decode` is taken from
spec section 3: read the `response` field and branch on whether it is a
sequence of CommandResults or the singleton error object. -/
def decodeTaggedResult (j : JValue) : Except PyErr TaggedResult := do
  let st ← j.getItem "status"
  let so ← j.getItem "stdout"
  let se ← j.getItem "stderr"
  let ec ← j.getItem "error_code"
  let i ← j.getItem "id"
  match st, so, se, ec with
  | .bool b, .str sso, .str sse, .num n =>
      if 0 ≤ n then
        .ok { status := b, stdout := sso, stderr := sse,
              error_code := n.toNat, id := i }
      else .error .typeError
  | _, _, _, _ => .error .typeError

/-- Modelled from the spec: the consumer-side branch of spec section 3,
"Consumers must branch on whether `response` is a sequence or a singleton
object" — a sequence decodes to the per-command results, an object to the
protocol-error form. -/
def decodeResponse (j : JValue) : Except PyErr Response := do
  let v ← j.getItem "response"
  match v with
  | .arr elems => do
      let rs ← elems.mapM decodeTaggedResult
      .ok (.results rs)
  | .obj fields =>
      match lookupField fields "error_code" with
      | some (.num n) =>
          if 0 ≤ n then .ok (.protocolError n.toNat)
          else .error .typeError
      | _ => .error .keyError
  | _ => .error .typeError

/-- Observable connection events of `Server.handle_client`, in order. -/
inductive Event where
  | setTimeout
  | read
  | write (r : Response)
  | close

/-- Whether a byte is a UTF-8 continuation byte (`0x80`-`0xBF`). -/
def isContByte (b : Nat) : Bool :=
  decide (0x80 ≤ b) && decide (b < 0xC0)

/-- Whether a byte sequence is valid UTF-8, which is exactly when
Python's strict `bytes.decode('utf-8')` succeeds: ASCII bytes stand
alone; leads `0xC2`-`0xDF`, `0xE0`-`0xEF` and `0xF0`-`0xF4` take one,
two and three continuation bytes, with the `0xE0`/`0xF0` lower and
`0xED`/`0xF4` upper bounds on the first continuation byte excluding
overlong forms, surrogates and code points above `0x10FFFF`; bare
continuation bytes, `0xC0`/`0xC1` and `0xF5`-`0xFF` are invalid. -/
def isValidUtf8 : List Nat → Bool
  | [] => true
  | b :: rest =>
      if b < 0x80 then isValidUtf8 rest
      else if b < 0xC2 then false
      else if b < 0xE0 then
        match rest with
        | b1 :: rest2 => isContByte b1 && isValidUtf8 rest2
        | [] => false
      else if b < 0xF0 then
        match rest with
        | b1 :: b2 :: rest3 =>
            isContByte b1 && isContByte b2 &&
            (decide (b ≠ 0xE0) || decide (0xA0 ≤ b1)) &&
            (decide (b ≠ 0xED) || decide (b1 < 0xA0)) &&
            isValidUtf8 rest3
        | _ => false
      else if b < 0xF5 then
        match rest with
        | b1 :: b2 :: b3 :: rest4 =>
            isContByte b1 && isContByte b2 && isContByte b3 &&
            (decide (b ≠ 0xF0) || decide (0x90 ≤ b1)) &&
            (decide (b ≠ 0xF4) || decide (b1 < 0x90)) &&
            isValidUtf8 rest4
        | _ => false
      else false

/-- What one `conn.recv(1024)` call yields: a byte sequence (possibly
empty, when the peer closed), a `socket.timeout`, or another transport
exception. -/
inductive RecvOutcome where
  | data (bytes : List Nat)
  | timeout
  | err

/-- Whether the single `conn.sendall` succeeds or raises. -/
inductive SendOutcome where
  | ok
  | fail

/-- Embedding of `Server.handle_client` (src/server.py lines 59-82) as
its per-connection event trace: set the idle timeout, read once; on
non-empty bytes, line 71 first decodes them as UTF-8 for logging, whose
`UnicodeDecodeError` on invalid bytes is caught by the generic handler,
closing with no write; only when the bytes decode is the parsed response
written (`request_parser` itself receives the raw bytes, so `parse` is
the `json.loads` oracle on bytes).  The `finally` block closes on every
path (a `sendall` failure is caught and still reaches `finally`, so the
trace is unchanged by `send`). -/
def handle_client (parse : List Nat → Option JValue)
    (run : String → RunOutcome) (recv : RecvOutcome) (_send : SendOutcome) :
    List Event :=
  match recv with
  | .data b =>
      if b = [] then [.setTimeout, .read, .close]
      else if isValidUtf8 b then
        [.setTimeout, .read, .write (requestParser run (parse b)), .close]
      else [.setTimeout, .read, .close]
  | .timeout => [.setTimeout, .read, .close]
  | .err => [.setTimeout, .read, .close]

/-- Observable events of one `Client.send_request` call, in order. -/
inductive ClientEvent where
  | connect
  | send (cmds : List Command)
  | recv

/-- Embedding of `Client.send_request` (src/client.py lines 53-63) as its
event trace plus returned text: connect, build the request, send it only
when building succeeded, then perform the single `recv(1024)` and return
its bytes decoded as text. -/
def send_request (ids : Nat → String) (file : FileOutcome)
    (interactive : String) (recvData : String) :
    List ClientEvent × String :=
  match generate_request ids file interactive with
  | .ok cmds => ([.connect, .send cmds, .recv], recvData)
  | .error _ => ([.connect, .recv], recvData)

/-- Recognizer for the read event of a connection trace. -/
def isReadEvent : Event → Bool
  | .read => true
  | _ => false

/-- Recognizer for the write event of a connection trace. -/
def isWriteEvent : Event → Bool
  | .write _ => true
  | _ => false

/-- A concrete run oracle for examples: every command line completes with
exit code 0, stdout `"hi\n"` and empty stderr. -/
def runEcho : String → RunOutcome :=
  fun _ => .completed { returncode := 0, stdout := "hi\n", stderr := "" }

/-- A concrete run oracle for examples: every command times out. -/
def runTimeout : String → RunOutcome :=
  fun _ => .timeoutExpired

/-- A concrete run oracle for examples: the process exits with code 0
while its stderr carries a "not found" message. -/
def runNotFoundOk : String → RunOutcome :=
  fun _ => .completed
    { returncode := 0, stdout := "", stderr := "sh: 1: foo: not found" }

/-- A concrete run oracle for examples: the command line `"y"` times out,
every other one completes with exit code 0. -/
def runFailSecond : String → RunOutcome :=
  fun c =>
    if c = "y" then .timeoutExpired
    else .completed { returncode := 0, stdout := "ok\n", stderr := "" }

/-- A concrete injective identifier supply standing in for `uuid.uuid4()`
in examples: the n-th identifier is a string of n `a`s. -/
def natId : Nat → String :=
  fun n => String.mk (List.replicate n 'a')

/-- A concrete parse oracle for connection-trace examples: every payload
fails to parse. -/
def parseNone : List Nat → Option JValue :=
  fun _ => none

/-! Theorems.  Helper lemmas come first, then one theorem per claim of
the specification (with witnesses and counterexamples where needed). -/

/-- Evaluation of the executor on a run that completes. -/
theorem execute_cmd_completed (run : String → RunOutcome) (cmd : String)
    (r : ProcResult) (h : run cmd = .completed r) :
    execute_cmd run cmd =
      .ok { status := decide (r.returncode = 0), stdout := r.stdout,
            stderr := r.stderr,
            error_code := if containsNotFound r.stderr then 3 else 0 } := by
  simp [execute_cmd, h]

/-- Evaluation of the executor on a run that does not complete. -/
theorem execute_cmd_not_completed (run : String → RunOutcome) (cmd : String)
    (h : ∀ r, run cmd ≠ .completed r) :
    execute_cmd run cmd = .error .otherError := by
  unfold execute_cmd
  cases hr : run cmd with
  | completed r => exact absurd hr (h r)
  | timeoutExpired => rfl
  | raised => rfl

/-- Claim C5: for every command execution completing within the timeout, the
executor's result has `status` true iff the exit code is zero, `stdout`
and `stderr` equal to the captured texts, and `error_code` 0 when the
error stream has no "not found" indication and 3 when it does. -/
theorem C5_executor_result_fields (run : String → RunOutcome) (cmd : String)
    (r : ProcResult) (h : run cmd = .completed r) :
    ∃ res, execute_cmd run cmd = .ok res ∧
      (res.status = true ↔ r.returncode = 0) ∧
      res.stdout = r.stdout ∧ res.stderr = r.stderr ∧
      (containsNotFound r.stderr = false → res.error_code = 0) ∧
      (containsNotFound r.stderr = true → res.error_code = 3) := by
  refine ⟨_, execute_cmd_completed run cmd r h, ?_, rfl, rfl, ?_, ?_⟩
  · simp
  · intro hn; simp [hn]
  · intro hn; simp [hn]

/-- Witness for C5 at a concrete completing run. -/
theorem C5_executor_result_fields_witness :
    ∃ res, execute_cmd runEcho "echo hi" = .ok res ∧
      (res.status = true ↔ (0 : Int) = 0) ∧
      res.stdout = "hi\n" ∧ res.stderr = "" ∧
      (containsNotFound "" = false → res.error_code = 0) ∧
      (containsNotFound "" = true → res.error_code = 3) :=
  C5_executor_result_fields runEcho "echo hi"
    { returncode := 0, stdout := "hi\n", stderr := "" } rfl

/-- Claim C4 counterexample: a process that exits with code 0 while its stderr
contains "not found" gets `status = true` (the status is derived from the
exit code alone at src/server.py line 50), contradicting the claimed
`status = false` — `error_code` is 3 as claimed. -/
theorem C4_counterexample :
    execute_cmd runNotFoundOk "foo" =
      .ok { status := true, stdout := "",
            stderr := "sh: 1: foo: not found", error_code := 3 } ∧
    containsNotFound "sh: 1: foo: not found" = true ∧
    (true : Bool) ≠ false := by
  refine ⟨?_, by decide, by decide⟩
  rfl

/-- Claim C4 amended: a completed command whose captured stderr contains a
"not found" indication gets `error_code = 3` regardless of exit code,
while its `status` keeps tracking the exit code (true iff zero) rather
than being forced false. -/
theorem C4_not_found_errcode (run : String → RunOutcome) (cmd : String)
    (r : ProcResult) (h : run cmd = .completed r)
    (hn : containsNotFound r.stderr = true) :
    ∃ res, execute_cmd run cmd = .ok res ∧
      res.error_code = 3 ∧ (res.status = true ↔ r.returncode = 0) ∧
      res.stdout = r.stdout ∧ res.stderr = r.stderr := by
  refine ⟨_, execute_cmd_completed run cmd r h, ?_, ?_, rfl, rfl⟩
  · simp [hn]
  · simp

/-- Witness for the amended C4 at a concrete zero-exit "not found" run. -/
theorem C4_not_found_errcode_witness :
    ∃ res, execute_cmd runNotFoundOk "foo" = .ok res ∧
      res.error_code = 3 ∧ (res.status = true ↔ (0 : Int) = 0) ∧
      res.stdout = "" ∧ res.stderr = "sh: 1: foo: not found" :=
  C4_not_found_errcode runNotFoundOk "foo"
    { returncode := 0, stdout := "", stderr := "sh: 1: foo: not found" }
    rfl (by decide)

/-- The only error the executor can raise is the generic-exception one. -/
theorem execute_cmd_error_eq (run : String → RunOutcome) (cmd : String)
    (e : PyErr) (h : execute_cmd run cmd = .error e) : e = .otherError := by
  unfold execute_cmd at h
  revert h
  cases run cmd with
  | completed r => exact fun h => by simp at h
  | timeoutExpired => exact fun h => (Except.error.inj h).symm
  | raised => exact fun h => (Except.error.inj h).symm

/-- Unfolding of the per-command loop on a schema-conforming entry. -/
theorem processCommands_toJson_cons (run : String → RunOutcome)
    (c : Command) (l : List JValue) :
    processCommands run (Command.toJson c :: l) =
      Except.bind (execute_cmd run c.method) (fun r =>
        Except.bind (processCommands run l) (fun tail =>
          Except.ok ({ status := r.status, stdout := r.stdout,
                       stderr := r.stderr, error_code := r.error_code,
                       id := JValue.str c.id } :: tail))) := rfl

/-- The dispatcher body on an encoded request is just the command loop. -/
theorem dispatchBody_encodeRequest (run : String → RunOutcome)
    (cmds : List Command) :
    dispatchBody run (encodeRequest cmds) =
      processCommands run (cmds.map Command.toJson) := rfl

/-- The dispatcher returns the result list when the try block succeeds. -/
theorem requestParser_of_ok (run : String → RunOutcome) (j : JValue)
    (rs : List TaggedResult) (h : dispatchBody run j = .ok rs) :
    requestParser run (some j) = .results rs := by
  simp [requestParser, h]

/-- A `KeyError` in the try block yields error code 2. -/
theorem requestParser_of_keyError (run : String → RunOutcome) (j : JValue)
    (h : dispatchBody run j = .error .keyError) :
    requestParser run (some j) = .protocolError 2 := by
  simp [requestParser, h]

/-- Any non-`KeyError` exception in the try block yields error code 4. -/
theorem requestParser_of_other (run : String → RunOutcome) (j : JValue)
    (e : PyErr) (h : dispatchBody run j = .error e) (he : e ≠ .keyError) :
    requestParser run (some j) = .protocolError 4 := by
  cases e with
  | keyError => exact absurd rfl he
  | typeError => simp [requestParser, h]
  | otherError => simp [requestParser, h]

/-- When every command of a well-formed batch completes, the loop
produces one tagged result per command, echoing the ids in order. -/
theorem processCommands_ok_of_completes (run : String → RunOutcome) :
    ∀ cmds : List Command,
      (∀ c ∈ cmds, ∃ r, run c.method = .completed r) →
      ∃ rs, processCommands run (cmds.map Command.toJson) = .ok rs ∧
        rs.map TaggedResult.id = cmds.map fun c => JValue.str c.id := by
  intro cmds
  induction cmds with
  | nil => exact fun _ => ⟨[], rfl, rfl⟩
  | cons c rest ih =>
      intro h
      obtain ⟨r, hr⟩ := h c (by simp)
      obtain ⟨rs, hrs, hid⟩ := ih fun d hd => h d (by simp [hd])
      refine ⟨{ status := decide (r.returncode = 0), stdout := r.stdout,
                stderr := r.stderr,
                error_code := if containsNotFound r.stderr then 3 else 0,
                id := JValue.str c.id } :: rs, ?_, by simp [hid]⟩
      rw [List.map_cons, processCommands_toJson_cons,
          execute_cmd_completed run c.method r hr, hrs]
      rfl

/-- If some command of a well-formed batch fails to complete, the loop
raises the generic exception. -/
theorem processCommands_error_of_failure (run : String → RunOutcome) :
    ∀ cmds : List Command,
      (∃ c ∈ cmds, ∀ r, run c.method ≠ .completed r) →
      processCommands run (cmds.map Command.toJson) = .error .otherError := by
  intro cmds
  induction cmds with
  | nil => rintro ⟨c, hc, -⟩; cases hc
  | cons c rest ih =>
      rintro ⟨d, hd, hfail⟩
      rw [List.map_cons, processCommands_toJson_cons]
      rcases List.mem_cons.mp hd with rfl | hdrest
      · rw [execute_cmd_not_completed run d.method hfail]; rfl
      · cases hx : execute_cmd run c.method with
        | error e => rw [execute_cmd_error_eq run c.method e hx]; rfl
        | ok r => rw [ih ⟨d, hdrest, hfail⟩]; rfl

/-- Claim C2: for a well-formed request whose commands all complete, the
response is the same-length, same-order list of tagged results whose ids
echo the request's command ids position by position (an empty command
list gives the empty result list). -/
theorem C2_response_echoes_batch (run : String → RunOutcome)
    (cmds : List Command)
    (h : ∀ c ∈ cmds, ∃ r, run c.method = .completed r) :
    ∃ rs, requestParser run (some (encodeRequest cmds)) = .results rs ∧
      rs.length = cmds.length ∧
      rs.map TaggedResult.id = cmds.map fun c => JValue.str c.id := by
  obtain ⟨rs, hok, hid⟩ := processCommands_ok_of_completes run cmds h
  refine ⟨rs, requestParser_of_ok run _ rs ?_, ?_, hid⟩
  · rw [dispatchBody_encodeRequest]; exact hok
  · simpa using congrArg List.length hid

/-- Witness for C2 on a concrete two-command batch where every command
completes. -/
theorem C2_response_echoes_batch_witness :
    ∃ rs, requestParser runEcho
        (some (encodeRequest [{ id := "a", method := "x" },
                              { id := "b", method := "y" }])) =
        .results rs ∧
      rs.length = ([{ id := "a", method := "x" },
                    { id := "b", method := "y" }] : List Command).length ∧
      rs.map TaggedResult.id =
        ([{ id := "a", method := "x" },
          { id := "b", method := "y" }] : List Command).map
          fun c => JValue.str c.id :=
  C2_response_echoes_batch runEcho _ (fun _ _ => ⟨_, rfl⟩)

/-- Claim C1 counterexample: in a two-command batch whose second command times
out, the dispatcher returns the singleton protocol error with code 4
(the `try` of src/server.py lines 21-32 wraps the whole loop, so the
exception escapes the loop to the batch-level handler), not the
per-command substitution the claim describes. -/
theorem C1_counterexample :
    requestParser runFailSecond
        (some (encodeRequest [{ id := "a", method := "x" },
                              { id := "b", method := "y" }])) =
      .protocolError 4 ∧
    Response.protocolError 4 ≠
      Response.results
        [{ status := true, stdout := "ok\n", stderr := "",
           error_code := 0, id := .str "a" },
         { status := false, stdout := "", stderr := "",
           error_code := 4, id := .str "b" }] := by
  exact ⟨rfl, fun h => Response.noConfusion h⟩

/-- Claim C1 amended: when executing any command of a well-formed batch raises
an exceptional failure (including a command timeout), the dispatcher
catches it at batch level and returns the singleton error Response with
`status = false` and `error_code = 4`; the results of the other commands
are discarded — one failing command aborts the whole batch's response. -/
theorem C1_exec_failure_aborts_batch (run : String → RunOutcome)
    (cmds : List Command)
    (h : ∃ c ∈ cmds, ∀ r, run c.method ≠ .completed r) :
    requestParser run (some (encodeRequest cmds)) = .protocolError 4 := by
  refine requestParser_of_other run _ .otherError ?_ (by simp)
  rw [dispatchBody_encodeRequest]
  exact processCommands_error_of_failure run cmds h

/-- Witness for the amended C1 on a concrete batch whose second command
times out. -/
theorem C1_exec_failure_aborts_batch_witness :
    requestParser runFailSecond
        (some (encodeRequest [{ id := "a", method := "x" },
                              { id := "b", method := "y" }])) =
      .protocolError 4 :=
  C1_exec_failure_aborts_batch runFailSecond _
    ⟨{ id := "b", method := "y" }, by simp, fun r h => by
      simp [runFailSecond] at h⟩

/-- Claim C6: for every possible input (any `json.loads` outcome, hence any
byte string) and any behavior of command execution, the dispatcher
totally produces one of the protocol's response forms — a result list or
a singleton error with code 1, 2 or 4; in particular every exception in
the try block other than the anticipated `KeyError` reaches the
catch-all and yields error code 4. -/
theorem C6_dispatcher_never_throws (run : String → RunOutcome)
    (loads : Option JValue) :
    ((∃ rs, requestParser run loads = .results rs) ∨
      requestParser run loads = .protocolError 1 ∨
      requestParser run loads = .protocolError 2 ∨
      requestParser run loads = .protocolError 4) ∧
    (∀ j e, loads = some j → dispatchBody run j = .error e →
      e ≠ .keyError → requestParser run loads = .protocolError 4) := by
  constructor
  · cases loads with
    | none => exact Or.inr (Or.inl rfl)
    | some j =>
        cases h : dispatchBody run j with
        | ok rs => exact Or.inl ⟨rs, requestParser_of_ok run j rs h⟩
        | error e =>
            cases e with
            | keyError =>
                exact Or.inr (Or.inr (Or.inl
                  (requestParser_of_keyError run j h)))
            | typeError =>
                exact Or.inr (Or.inr (Or.inr
                  (requestParser_of_other run j _ h (by simp))))
            | otherError =>
                exact Or.inr (Or.inr (Or.inr
                  (requestParser_of_other run j _ h (by simp))))
  · rintro j e rfl he hne
    exact requestParser_of_other run j e he hne

/-- Witness for C6: a request whose JSON decodes to a bare number makes
the try block raise a `TypeError` on subscripting, and the catch-all
still produces the error-4 response. -/
theorem C6_dispatcher_never_throws_witness :
    requestParser runEcho (some (.num 3)) = .protocolError 4 :=
  (C6_dispatcher_never_throws runEcho (some (.num 3))).2 (.num 3)
    .typeError rfl rfl (by simp)

/-- Reduction of a successful bind in the `Except` monad. -/
theorem exceptBind_ok {ε α β : Type} (a : α) (f : α → Except ε β) :
    (Except.ok a : Except ε α) >>= f = f a := rfl

/-- Reduction of a failing bind in the `Except` monad. -/
theorem exceptBind_err {ε α β : Type} (e : ε) (f : α → Except ε β) :
    (Except.error e : Except ε α) >>= f = Except.error e := rfl

/-- Prepending fully well-formed, completing entries preserves an error
raised further down the command loop. -/
theorem processCommands_pre_error (run : String → RunOutcome) :
    ∀ pre : List Command,
      (∀ c ∈ pre, ∃ r, run c.method = .completed r) →
      ∀ (l : List JValue) (e : PyErr), processCommands run l = .error e →
      processCommands run (pre.map Command.toJson ++ l) = .error e := by
  intro pre
  induction pre with
  | nil => intro _ l e hl; simpa using hl
  | cons c rest ih =>
      intro h l e hl
      obtain ⟨r, hr⟩ := h c (by simp)
      rw [List.map_cons, List.cons_append, processCommands_toJson_cons,
          execute_cmd_completed run c.method r hr,
          ih (fun d hd => h d (by simp [hd])) l e hl]
      rfl

/-- An entry missing `method`, or missing `id` after its method executed
to completion, makes the command loop raise `KeyError`. -/
theorem processCommands_bad_entry_keyError (run : String → RunOutcome)
    (bad : JValue) (rest : List JValue)
    (hbad : bad.getItem "method" = .error .keyError ∨
      ∃ m r, bad.getItem "method" = .ok (.str m) ∧
        run m = .completed r ∧ bad.getItem "id" = .error .keyError) :
    processCommands run (bad :: rest) = .error .keyError := by
  rcases hbad with hm | ⟨m, r, hm, hr, hid⟩
  · simp [processCommands, hm, exceptBind_err]
  · simp [processCommands, hm, exceptBind_ok, exceptBind_err,
          execute_cmd_completed run m r hr, hid]

/-- Claim C3: a `json.loads` failure (input bytes that are not valid JSON)
yields error code 1; a decoded object without the `commands` field yields
error code 2; and a schema-violating command entry (no `method`, or no
`id` with its method's execution completing) yields error code 2,
provided the commands the loop executes before the violation is detected
all complete without exceptional failure. -/
theorem C3_malformed_and_schema_errors (run : String → RunOutcome) :
    requestParser run none = .protocolError 1 ∧
    (∀ fields, lookupField fields "commands" = none →
      requestParser run (some (.obj fields)) = .protocolError 2) ∧
    (∀ (fields : List (String × JValue)) (pre : List Command)
        (bad : JValue) (rest : List JValue),
      lookupField fields "commands" =
        some (.arr (pre.map Command.toJson ++ bad :: rest)) →
      (∀ c ∈ pre, ∃ r, run c.method = .completed r) →
      (bad.getItem "method" = .error .keyError ∨
        ∃ m r, bad.getItem "method" = .ok (.str m) ∧
          run m = .completed r ∧ bad.getItem "id" = .error .keyError) →
      requestParser run (some (.obj fields)) = .protocolError 2) := by
  refine ⟨rfl, ?_, ?_⟩
  · intro fields hf
    refine requestParser_of_keyError run _ ?_
    simp [dispatchBody, JValue.getItem, hf, exceptBind_err]
  · intro fields pre bad rest hf hpre hbad
    refine requestParser_of_keyError run _ ?_
    have hpc := processCommands_pre_error run pre hpre (bad :: rest)
      .keyError (processCommands_bad_entry_keyError run bad rest hbad)
    simp [dispatchBody, JValue.getItem, hf, JValue.pyIter,
          exceptBind_ok, exceptBind_err, hpc]

/-- Claim C3 counterexample: the parseable request whose single command entry
has a `method` but no `id` — a schema violation the claim assigns error
code 2 — yields error code 4 when that method's execution times out,
because src/server.py line 26 executes `cmd["method"]` before line 28
reads `cmd["id"]`, and the timeout exception wins over the `KeyError`. -/
theorem C3_counterexample :
    requestParser runTimeout
        (some (.obj [("commands",
          .arr [.obj [("method", .str "x")]])])) =
      .protocolError 4 ∧
    Response.protocolError 4 ≠ Response.protocolError 2 := by
  refine ⟨rfl, fun h => ?_⟩
  simpa using Response.protocolError.inj h

/-- Witness for the amended C3 at a concrete request whose first entry is
well formed and completes and whose second entry lacks `id`. -/
theorem C3_malformed_and_schema_errors_witness :
    requestParser runEcho
        (some (.obj [("commands",
          .arr [Command.toJson { id := "a", method := "ls" },
                .obj [("method", .str "m")]])])) =
      .protocolError 2 :=
  (C3_malformed_and_schema_errors runEcho).2.2 _
    [{ id := "a", method := "ls" }] (.obj [("method", .str "m")]) []
    rfl (fun _ _ => ⟨_, rfl⟩)
    (Or.inr ⟨"m", _, rfl, rfl, rfl⟩)

/-- Decoding undoes encoding on one command entry. -/
theorem decodeCommand_toJson (c : Command) :
    decodeCommand (Command.toJson c) = .ok c := rfl

/-- Decoding undoes encoding on a list of command entries. -/
theorem mapM_decodeCommand (cmds : List Command) :
    (cmds.map Command.toJson).mapM decodeCommand = .ok cmds := by
  induction cmds with
  | nil => rfl
  | cons c rest ih =>
      rw [List.map_cons, List.mapM_cons, decodeCommand_toJson,
          exceptBind_ok, ih, exceptBind_ok]
      rfl

/-- Decoding undoes encoding on one tagged result. -/
theorem decodeTaggedResult_toJson (r : TaggedResult) :
    decodeTaggedResult (TaggedResult.toJson r) = .ok r := by
  have h : (0 : Int) ≤ (r.error_code : Int) := Int.natCast_nonneg _
  simp [decodeTaggedResult, TaggedResult.toJson, JValue.getItem,
        lookupField, exceptBind_ok, h]

/-- Decoding undoes encoding on a list of tagged results. -/
theorem mapM_decodeTaggedResult (rs : List TaggedResult) :
    (rs.map TaggedResult.toJson).mapM decodeTaggedResult = .ok rs := by
  induction rs with
  | nil => rfl
  | cons r rest ih =>
      rw [List.map_cons, List.mapM_cons, decodeTaggedResult_toJson,
          exceptBind_ok, ih, exceptBind_ok]
      rfl

/-- Decoding undoes encoding on every response value. -/
theorem decodeResponse_toJson (resp : Response) :
    decodeResponse (Response.toJson resp) = .ok resp := by
  cases resp with
  | results rs =>
      show (do
          let l ← (rs.map TaggedResult.toJson).mapM decodeTaggedResult
          (Except.ok (Response.results l) : Except PyErr Response)) =
        Except.ok (Response.results rs)
      rw [mapM_decodeTaggedResult, exceptBind_ok]
  | protocolError e =>
      simp [decodeResponse, Response.toJson, JValue.getItem, lookupField,
            exceptBind_ok, Int.natCast_nonneg]

/-- Claim C7: the wire codec round-trips — decoding the encoded form of any
request (hence any request the Request Builder produces) gives back its
commands, and decoding the encoded form of any response the dispatcher
produces gives back that response.  The textual layer is the standard
`json` library, external to the repository; the JSON value tree stands
for the wire form. -/
theorem C7_codec_roundtrip :
    (∀ cmds : List Command, decodeRequest (encodeRequest cmds) = .ok cmds) ∧
    ∀ (run : String → RunOutcome) (loads : Option JValue),
      decodeResponse (Response.toJson (requestParser run loads)) =
        .ok (requestParser run loads) := by
  constructor
  · intro cmds
    show (cmds.map Command.toJson).mapM decodeCommand = Except.ok cmds
    exact mapM_decodeCommand cmds
  · intro run loads
    exact decodeResponse_toJson _

/-- The example identifier supply is injective, as a collision-free
`uuid.uuid4()` stream is. -/
theorem natId_injective : Function.Injective natId := by
  intro a b h
  have hdata : List.replicate a 'a' = List.replicate b 'a' :=
    congrArg String.data h
  simpa using congrArg List.length hdata

/-- Claim C8: with a collision-free identifier supply, the Request Builder
turns any non-empty command-string sequence into one Command per string
in input order with pairwise-distinct identifiers; and when no
file-sourced commands exist (no path, or an empty file), it builds the
batch from exactly one interactively obtained command. -/
theorem C8_builder_properties (ids : Nat → String)
    (hinj : Function.Injective ids) :
    (∀ data : List String, data ≠ [] →
      (buildCommands ids data).map Command.method = data ∧
      ((buildCommands ids data).map Command.id).Nodup) ∧
    ∀ interactive : String,
      generate_request ids .noPath interactive =
        .ok (buildCommands ids [interactive]) ∧
      generate_request ids (.lines []) interactive =
        .ok (buildCommands ids [interactive]) ∧
      (buildCommands ids [interactive]).length = 1 := by
  constructor
  · intro data _
    constructor
    · rw [buildCommands, List.map_map]
      exact List.enum_map_snd data
    · rw [buildCommands, List.map_map]
      have hcomp :
          (Command.id ∘ fun p : Nat × String =>
            ({ id := ids p.1, method := p.2 } : Command)) =
          ids ∘ Prod.fst := rfl
      rw [hcomp, ← List.map_map, List.enum_map_fst]
      exact (List.nodup_range _).map hinj
  · intro interactive
    exact ⟨rfl, rfl, rfl⟩

/-- Witness for C8 with the concrete injective supply and concrete
command strings. -/
theorem C8_builder_properties_witness :
    ((buildCommands natId ["ls -la", "pwd"]).map Command.method =
        ["ls -la", "pwd"] ∧
      ((buildCommands natId ["ls -la", "pwd"]).map Command.id).Nodup) ∧
    generate_request natId .noPath "whoami" =
      .ok (buildCommands natId ["whoami"]) :=
  ⟨(C8_builder_properties natId natId_injective).1 ["ls -la", "pwd"]
      (by simp),
   ((C8_builder_properties natId natId_injective).2 "whoami").1⟩

/-- Claim C9 counterexample: the non-empty payload `b"\xff"` (a single
byte that is not valid UTF-8) is neither a zero-byte read, a timeout,
nor a transport error, yet the handler writes nothing back: the logging
decode at src/server.py line 71 raises `UnicodeDecodeError` before
`request_parser` runs, the generic handler catches it, and the
connection is closed — falsifying the claim's "otherwise exactly one
response is written". -/
theorem C9_counterexample :
    (handle_client parseNone runEcho (.data [0xFF]) .ok).countP
      isWriteEvent = 0 ∧
    ([0xFF] : List Nat) ≠ [] ∧
    isValidUtf8 [0xFF] = false ∧
    (handle_client parseNone runEcho (.data [0xFF]) .ok).getLast? =
      some .close := by
  refine ⟨rfl, by decide, by decide, rfl⟩

/-- Claim C9 amended: every connection trace of the handler performs
exactly one read and at most one write, and ends by releasing the
connection regardless of the send outcome; a timed-out read, a transport
error, a zero-byte read, or a non-empty payload that is not valid UTF-8
(which makes the logging decode raise before dispatch) produces no
write, and a non-empty UTF-8-decodable read produces exactly one. -/
theorem C9_connection_trace (parse : List Nat → Option JValue)
    (run : String → RunOutcome) (recv : RecvOutcome) (send : SendOutcome) :
    ((handle_client parse run recv send).countP isReadEvent = 1 ∧
      (handle_client parse run recv send).countP isWriteEvent ≤ 1 ∧
      (handle_client parse run recv send).getLast? = some .close) ∧
    (handle_client parse run .timeout send).countP isWriteEvent = 0 ∧
    (handle_client parse run .err send).countP isWriteEvent = 0 ∧
    (handle_client parse run (.data []) send).countP isWriteEvent = 0 ∧
    (∀ b : List Nat, isValidUtf8 b = false →
      (handle_client parse run (.data b) send).countP isWriteEvent = 0) ∧
    ∀ b : List Nat, b ≠ [] → isValidUtf8 b = true →
      (handle_client parse run (.data b) send).countP isWriteEvent = 1 := by
  refine ⟨?_, rfl, rfl, rfl, ?_, ?_⟩
  · cases recv with
    | data b =>
        by_cases hb : b = []
        · simp only [handle_client, if_pos hb]
          exact ⟨rfl, Nat.zero_le 1, rfl⟩
        · by_cases hv : isValidUtf8 b
          · simp only [handle_client, if_neg hb, if_pos hv]
            exact ⟨rfl, Nat.le_refl 1, rfl⟩
          · simp only [handle_client, if_neg hb, if_neg hv]
            exact ⟨rfl, Nat.zero_le 1, rfl⟩
    | timeout => exact ⟨rfl, Nat.zero_le 1, rfl⟩
    | err => exact ⟨rfl, Nat.zero_le 1, rfl⟩
  · intro b hv
    by_cases hb : b = []
    · simp only [handle_client, if_pos hb]; rfl
    · simp only [handle_client, if_neg hb, hv, if_neg Bool.false_ne_true]
      rfl
  · intro b hb hv
    simp only [handle_client, if_neg hb, hv, if_pos rfl]
    rfl

/-- Witness for the amended C9 on a concrete non-empty UTF-8 read. -/
theorem C9_connection_trace_witness :
    (handle_client parseNone runEcho (.data [104, 105]) .fail).countP
      isWriteEvent = 1 ∧
    (handle_client parseNone runEcho (.data [104, 105]) .fail).countP
      isReadEvent = 1 ∧
    (handle_client parseNone runEcho (.data [104, 105]) .fail).getLast? =
      some .close :=
  ⟨(C9_connection_trace parseNone runEcho (.data [104, 105]) .fail).2.2.2.2.2
      [104, 105] (by decide) (by decide),
   (C9_connection_trace parseNone runEcho (.data [104, 105]) .fail).1.1,
   (C9_connection_trace parseNone runEcho (.data [104, 105]) .fail).1.2.2⟩

/-- Claim C10: when command sourcing fails (the file cannot be located), the
transport client still opens the connection, sends nothing, performs its
single read, and returns that read's bytes — the sourcing failure is not
reported to the caller. -/
theorem C10_sourcing_failure_transport (ids : Nat → String)
    (interactive recvData : String) :
    generate_request ids .notFound interactive =
      .error "Unable to locate file!" ∧
    send_request ids .notFound interactive recvData =
      ([.connect, .recv], recvData) :=
  ⟨rfl, rfl⟩

end SocketRC
